import Mathlib

/-!
Verification of the Machine-Learning-Preprocessing-CLI repository
(src/data_loader.py and src/cleaner.py) against its specification.

The embedding below translates the two Python modules into Lean.  Tables are
modelled column-generically: a table is a header (list of column names) and a
list of rows, each row a list of cells, a cell being `Option α` where `none`
stands for a missing value (pandas NaN/None).  The pandas parsers
(`read_csv`, `read_excel`, `read_json`) are black-box library calls whose
behaviour on a given file is recorded as data in the `SourceFile` structure;
the loader's own logic (format inference, dispatch, emptiness check) is
translated from the source.

String-processing helpers are written by structural recursion on the
underlying character list so that every definition evaluates by kernel
reduction (`decide`/`rfl`).
-/

/-- Python `s.split(sep)` for a one-character separator, accumulator form;
structural recursion over the remaining characters. -/
def py_split_aux (sep : Char) : List Char → List Char → List String
  | [], acc => [String.mk acc.reverse]
  | c :: cs, acc =>
      if c = sep then String.mk acc.reverse :: py_split_aux sep cs []
      else py_split_aux sep cs (c :: acc)

/-- Python `s.split(sep)` for a one-character separator: `"a.b".split "." = ["a","b"]`,
`"a.".split "." = ["a",""]`, `"abc".split "." = ["abc"]`. -/
def py_split (s : String) (sep : Char) : List String :=
  py_split_aux sep s.toList []

/-- Python `s.lower()` restricted to ASCII (file extensions in the claims are ASCII). -/
def py_lower (s : String) : String :=
  String.mk (s.toList.map Char.toLower)

/-- The extension-to-MIME-type table consulted by `mimetypes.guess_type`
(data_loader.py line 86).  Modelled from observed CPython 3.11 behaviour on a
standard deployment (builtin `types_map` plus `/etc/mime.types`): the entries
relevant to this development.  Note that the type registered for `xlsx` is
`application/vnd.openxmlformats-officedocument.spreadsheetml.sheet`, whose
subtype is not the string "xlsx". -/
def mimetypes_table : List (String × String) :=
  [ ("csv",  "text/csv"),
    ("json", "application/json"),
    ("xlsx", "application/vnd.openxmlformats-officedocument.spreadsheetml.sheet"),
    ("xls",  "application/vnd.ms-excel"),
    ("txt",  "text/plain"),
    ("html", "text/html"),
    ("xml",  "text/xml"),
    ("zip",  "application/zip"),
    ("pdf",  "application/pdf"),
    ("png",  "image/png"),
    ("jpg",  "image/jpeg") ]

/-- Python `file_path.split('.')[-1].lower()` (data_loader.py line 97, the
tier-3 fallback of `try_infer_format`). -/
def path_ext (file_path : String) : String :=
  py_lower ((py_split file_path '.').getLastD "")

/-- `mimetypes.guess_type(file_path)[0]` (data_loader.py line 86): `none` when
the path has no dot (no extension to look up) or the extension is not in the
table, otherwise the registered MIME type.  Modelled for paths with a
non-empty stem, which covers every path in the claims. -/
def mimetypes_guess_type (file_path : String) : Option String :=
  if (py_split file_path '.').length ≤ 1 then none
  else mimetypes_table.lookup (path_ext file_path)

/-- Python `mime_type.split('/')[1]` (data_loader.py line 88).  Every MIME
string in `mimetypes_table` contains exactly one '/', so index 1 exists; the
default is never taken. -/
def mime_subtype (mime_type : String) : String :=
  (py_split mime_type '/').getD 1 ""

/-- A loaded table: pandas DataFrame restricted to what the translated code
observes.  `header` is the column index, `rows` the data rows; a cell is
`Option α`, with `none` for a missing value (NaN). -/
structure Table (α : Type) where
  header : List String
  rows : List (List (Option α))
deriving DecidableEq

/-- `df.empty` (data_loader.py line 75): true when either axis has length 0. -/
def Table.empty {α : Type} (df : Table α) : Bool :=
  df.rows.isEmpty || df.header.isEmpty

/-- A parser failure raised by a pandas reader (malformed content for the
attempted format). -/
structure ParseFailure where
  msg : String
deriving DecidableEq

/-- A file on disk, as the loader observes it.  `path` is the file path;
`sniff` is the result of the content-based `filetype.guess` (data_loader.py
line 92): `some ext` when the leading bytes match a known binary signature
(e.g. "xlsx" for a real xlsx archive), `none` otherwise — the `filetype`
library has no matcher for text formats, so CSV/JSON content sniffs as `none`.
`read_csv`/`read_excel`/`read_json` record what the corresponding pandas
parser yields on this file's bytes. -/
structure SourceFile (α : Type) where
  path : String
  sniff : Option String
  read_csv : Except ParseFailure (Table α)
  read_excel : Except ParseFailure (Table α)
  read_json : Except ParseFailure (Table α)

/-- `try_infer_format` (data_loader.py lines 80–97): tier 1, MIME lookup from
the extension, returning the subtype when the lookup succeeds; tier 2,
content sniffing; tier 3, the lowercased extension itself. -/
def try_infer_format {α : Type} (f : SourceFile α) : String :=
  match mimetypes_guess_type f.path with
  | some mime_type => mime_subtype mime_type
  | none =>
      match f.sniff with
      | some kind => kind
      | none => path_ext f.path

/-- Errors raised by `load_data`.  `attributeError` records a Python
AttributeError: data_loader.py line 70 names `pd.errors.EmptydfError`, an
attribute pandas does not define (the real name is `EmptyDataError`), so when
a parser raises, evaluating the except clause itself raises AttributeError. -/
inductive LoadError where
  | unsupportedFormat (fmt : String)
  | emptyFile (path : String)
  | attributeError (missing : String)
deriving DecidableEq

/-- The reader `load_data` dispatches to for a supported format tag
(data_loader.py lines 64–69). -/
def read_for_format {α : Type} (f : SourceFile α) (file_format : String) :
    Except ParseFailure (Table α) :=
  if file_format = "csv" then f.read_csv
  else if file_format = "xlsx" then f.read_excel
  else f.read_json

/-- `load_data` (data_loader.py lines 46–78): infer the format; if the tag is
one of csv/xlsx/json, run the matching parser — a parser exception escapes as
AttributeError because the except clause (line 70) names the nonexistent
`pd.errors.EmptydfError`; a parsed-but-empty frame raises the
"contains no data" ValueError (line 76, the `EmptyFile` error of the spec);
otherwise raise the "Unsupported file format" ValueError (line 73). -/
def load_data {α : Type} (f : SourceFile α) : Except LoadError (Table α) :=
  if try_infer_format f = "csv" ∨ try_infer_format f = "xlsx" ∨ try_infer_format f = "json" then
    match read_for_format f (try_infer_format f) with
    | Except.error _ => Except.error (LoadError.attributeError "pandas.errors.EmptydfError")
    | Except.ok df =>
        if df.empty then Except.error (LoadError.emptyFile f.path)
        else Except.ok df
  else
    Except.error (LoadError.unsupportedFormat (try_infer_format f))

/-!
## Cleaner (src/cleaner.py)

`clean_data` handles missing values (step 2), then counts duplicates (step 3,
report only) and would compute z-scores (step 4).  Line 57 of cleaner.py reads
`z_scores = cleaned_df.apply(pd.Series.zscore)`: pandas has never defined a
`Series.zscore` attribute (the z-score function lives in `scipy.stats`, which
data_loader.py uses correctly), so evaluating `pd.Series.zscore` raises
AttributeError on every call, before `cleaned_df` can be returned.
-/

/-- The cleaning options dictionary (cleaner.py line 6): a method string and a
z-score threshold.  The threshold is never consulted before line 57 raises. -/
structure CleanOptions where
  method : String
  threshold : Rat
deriving DecidableEq

/-- Number of missing cells in column `j` of the table: one entry of
`df.isnull().sum()` (cleaner.py line 26). -/
def column_missing_count {α : Type} (df : Table α) (j : Nat) : Nat :=
  (df.rows.filterMap (fun r => r.get? j)).countP (fun c => c.isNone)

/-- `df.isnull().sum()` (cleaner.py line 26): the per-column missing-value
counts, in column order. -/
def missing_counts {α : Type} (df : Table α) : List Nat :=
  (List.range df.header.length).map (column_missing_count df)

/-- `missing_counts.any()` (cleaner.py line 31): some column has a nonzero
missing count. -/
def missing_counts_any {α : Type} (df : Table α) : Bool :=
  (missing_counts df).any (fun n => n ≠ 0)

/-- `df.dropna()` (cleaner.py line 33) on the row list: keep exactly the rows
with no missing cell (pandas default `how='any'`). -/
def dropna_rows {α : Type} : List (List (Option α)) → List (List (Option α)) :=
  List.filter (fun r => r.all (fun c => c.isSome))

/-- `rows.duplicated().sum()` (cleaner.py line 45), accumulator form: count
the rows equal to some earlier row. -/
def duplicated_sum_aux {α : Type} [DecidableEq α]
    (seen : List (List (Option α))) : List (List (Option α)) → Nat
  | [] => 0
  | r :: rs => (if r ∈ seen then 1 else 0) + duplicated_sum_aux (r :: seen) rs

/-- `df.duplicated().sum()` (cleaner.py line 45): the number of rows identical
to an earlier row. -/
def duplicated_sum {α : Type} [DecidableEq α] (rows : List (List (Option α))) : Nat :=
  duplicated_sum_aux [] rows

/-- Errors raised by `clean_data`: the "Invalid method" ValueError (cleaner.py
line 40), and the AttributeError from the nonexistent `pd.Series.zscore`
(line 57). -/
inductive CleanError where
  | invalidCleaningMethod
  | attributeError (missing : String)
deriving DecidableEq

/-- Steps 3–4 of `clean_data` (cleaner.py lines 44–78) applied to the
post-step-2 table: the duplicate count (line 45) is computed and printed only
— duplicates are never removed; line 57 then evaluates `pd.Series.zscore`,
an attribute pandas does not define, so the call raises AttributeError before
the `return cleaned_df` at line 78 is reached. -/
def clean_steps_3_4 {α : Type} [DecidableEq α] (cleaned_df : Table α) :
    Except CleanError (Table α) :=
  let _duplicate_count := duplicated_sum cleaned_df.rows
  Except.error (CleanError.attributeError "pandas.Series.zscore")

/-- `clean_data` (cleaner.py lines 6–78).  Step 2 (lines 31–42): when any
missing value exists, method "dropna" drops the rows with missing cells,
method "fillna" fills them (`df.fillna(...)` — the fill value is the literal
`...` placeholder; the filled table is modelled with its rows unchanged since
replacing every missing cell by one fixed sentinel does not change row
equality classes and the table is never returned anyway — see
`clean_steps_3_4`), and any other method raises the "Invalid method"
ValueError; when no missing value exists the table passes through untouched.
Steps 3–4 then unconditionally raise (line 57). -/
def clean_data {α : Type} [DecidableEq α] (df : Table α) (options : CleanOptions) :
    Except CleanError (Table α) :=
  if missing_counts_any df then
    if options.method = "dropna" then
      clean_steps_3_4 (Table.mk df.header (dropna_rows df.rows))
    else if options.method = "fillna" then
      clean_steps_3_4 (Table.mk df.header df.rows)
    else
      Except.error CleanError.invalidCleaningMethod
  else
    clean_steps_3_4 df

/-!
## Inspector (`inspect_data`, src/data_loader.py lines 99–144)

`inspect_data` runs ten steps in a fixed order.  Steps 1–4 (lines 115–124)
are total computations that print their results.  Step 5, `check_outliers`
(lines 192–211), computes z-scores and then reaches line 207,
`if numerical_cols:`, which takes the truth value of a pandas `Index` object
— an operation pandas defines to raise
`ValueError: The truth value of a Index is ambiguous` unconditionally.  So
for every table the call aborts inside step 5 and steps 6–10 — including the
correlation and skewness steps gated at lines 132–138 — are unreachable, and
the `columns_for_corr`/`columns_for_skewness` arguments are never consulted.
The model covers tables all of whose columns are numeric dtype with at least
one column (so that step 3's `describe` and step 5's z-score computation do
not themselves raise first); that is the shape of table the loader claims
concern.
-/

/-- One inspection step, tagged with the data it reports where a claim could
observe it. -/
inductive InspectStep where
  | basicInfo (nrows ncols : Nat)
  | missingValues (counts : List Nat)
  | summaryStats
  | duplicateRows (count : Nat)
  | outliers
  | dfRanges
  | corrAnalysis
  | skewness
  | visualExploration
  | timeSeries
deriving DecidableEq

/-- The Python exception that aborts an inspection run. -/
inductive PyError where
  | valueErrorIndexTruthiness
deriving DecidableEq

/-- The observable outcome of one `inspect_data` call: the steps that ran to
completion, and the exception that aborted the run, if any. -/
structure InspectRun where
  executed : List InspectStep
  aborted : Option PyError
deriving DecidableEq

/-- `inspect_data` (data_loader.py lines 99–144): steps 1–4 complete; step 5
(`check_outliers`) raises ValueError at line 207 (`if numerical_cols:`, the
truth value of a pandas Index), so the run aborts there and no later step —
in particular neither `perform_corr_analysis` nor `check_skewness` — ever
executes, whatever `columns_for_corr` and `columns_for_skewness` hold. -/
def inspect_data {α : Type} [DecidableEq α] (df : Table α)
    (columns_for_corr columns_for_skewness : Option (List String)) : InspectRun :=
  { executed :=
      [ InspectStep.basicInfo df.rows.length df.header.length,
        InspectStep.missingValues (missing_counts df),
        InspectStep.summaryStats,
        InspectStep.duplicateRows (duplicated_sum df.rows) ],
    aborted := some PyError.valueErrorIndexTruthiness }

/-!
## Concrete files and tables used by the claim theorems
-/

/-- A well-formed, non-empty xlsx file carrying its standard extension: the
content sniffs as a real xlsx archive and the spreadsheet parser reads a 2x2
table from it; the text parsers reject the binary bytes. -/
def xlsx_file : SourceFile Int :=
  { path := "/data/table.xlsx",
    sniff := some "xlsx",
    read_csv := Except.error { msg := "binary bytes are not delimited text" },
    read_excel := Except.ok { header := ["a", "b"], rows := [[some 1, some 2], [some 3, some 4]] },
    read_json := Except.error { msg := "binary bytes are not json" } }

/-- A well-formed, non-empty csv file with the standard extension. -/
def csv_file : SourceFile Int :=
  { path := "/data/table.csv",
    sniff := none,
    read_csv := Except.ok { header := ["a"], rows := [[some 1], [some 2]] },
    read_excel := Except.error { msg := "not an xlsx archive" },
    read_json := Except.error { msg := "trailing data" } }

/-- A file whose bytes are JSON but whose name carries the ".csv" extension;
its content signature is recorded as "json" to exhibit that tier 1 never
consults it. -/
def mislabeled_file : SourceFile Int :=
  { path := "/data/records.csv",
    sniff := some "json",
    read_csv := Except.ok { header := ["raw"], rows := [[some 0]] },
    read_excel := Except.error { msg := "not an xlsx archive" },
    read_json := Except.ok { header := ["k"], rows := [[some 7]] } }

/-- A plain-text file: its extension maps to MIME type text/plain, so the
inferred tag is "plain", outside the supported set. -/
def txt_file : SourceFile Int :=
  { path := "/home/user/notes.txt",
    sniff := none,
    read_csv := Except.ok { header := ["line"], rows := [[some 1]] },
    read_excel := Except.error { msg := "not an xlsx archive" },
    read_json := Except.error { msg := "invalid json" } }

/-- A csv file holding only a header line: the parse succeeds and yields a
table with two columns and zero rows. -/
def empty_csv_file : SourceFile Int :=
  { path := "/data/empty.csv",
    sniff := none,
    read_csv := Except.ok { header := ["a", "b"], rows := [] },
    read_excel := Except.error { msg := "not an xlsx archive" },
    read_json := Except.error { msg := "invalid json" } }

/-!
## Claim theorems: loader
-/

/-- Claim C1, counterexample: a well-formed, non-empty xlsx file named with
the standard ".xlsx" extension does not load — the extension maps to MIME
type application/vnd.openxmlformats-officedocument.spreadsheetml.sheet, tier 1
wins, and the resulting subtype is not one of csv/xlsx/json, so `load_data`
raises the Unsupported-file-format error instead of returning the 2x2 table
the spreadsheet parser would produce. -/
theorem C1_xlsx_counterexample :
    xlsx_file.sniff = some "xlsx" ∧
    xlsx_file.read_excel =
      Except.ok (Table.mk ["a", "b"] [[some 1, some 2], [some 3, some 4]]) ∧
    load_data xlsx_file =
      Except.error (LoadError.unsupportedFormat
        "vnd.openxmlformats-officedocument.spreadsheetml.sheet") :=
  ⟨rfl, rfl, rfl⟩

/-- Claim C1, amended: `load_data` returns the parsed table exactly (hence
with row and column counts matching the source content) for a well-formed
non-empty file when the inference yields a supported tag, namely: a csv file
whose extension maps to text/csv, a json file whose extension maps to
application/json, or an xlsx file whose extension has no MIME mapping and
whose content sniffs as xlsx.  An xlsx file carrying the standard ".xlsx"
extension instead fails with the Unsupported-file-format error
(`C1_xlsx_counterexample`). -/
theorem C1_load_wellformed_amended {α : Type} (f : SourceFile α) (t : Table α)
    (hrows : t.rows ≠ []) (hcols : t.header ≠ [])
    (h : (mimetypes_guess_type f.path = some "text/csv" ∧ f.read_csv = Except.ok t) ∨
         (mimetypes_guess_type f.path = some "application/json" ∧ f.read_json = Except.ok t) ∨
         (mimetypes_guess_type f.path = none ∧ f.sniff = some "xlsx" ∧
            f.read_excel = Except.ok t)) :
    load_data f = Except.ok t := by
  have hempty : t.empty = false := by
    cases t with
    | mk header rows => cases rows <;> cases header <;> simp_all [Table.empty]
  rcases h with ⟨h1, h2⟩ | ⟨h1, h2⟩ | ⟨h1, hs, h2⟩
  · have hfmt : try_infer_format f = "csv" := by
      unfold try_infer_format; rw [h1]; rfl
    simp [load_data, hfmt, read_for_format, h2, hempty]
  · have hfmt : try_infer_format f = "json" := by
      unfold try_infer_format; rw [h1]; rfl
    simp [load_data, hfmt, read_for_format, h2, hempty]
  · have hfmt : try_infer_format f = "xlsx" := by
      unfold try_infer_format; rw [h1, hs]
    simp [load_data, hfmt, read_for_format, h2, hempty]

/-- Claim C1, witness: the concrete csv file loads to its parsed 2-row,
1-column table. -/
theorem C1_load_wellformed_witness :
    load_data csv_file = Except.ok (Table.mk ["a"] [[some (1 : Int)], [some 2]]) :=
  C1_load_wellformed_amended csv_file _ (by decide) (by decide)
    (Or.inl ⟨by decide, rfl⟩)

/-- Claim C2: format inference tries the three tiers in fixed order and the
first tier that yields an answer wins — whenever the path's extension maps to
a MIME type, the inferred tag is that type's subtype portion, the content
signature never being consulted; only when the MIME lookup yields nothing is
the content signature used; only when both yield nothing is the lowercased
extension returned. -/
theorem C2_inference_tier_order {α : Type} (f : SourceFile α) :
    (∀ mime_type, mimetypes_guess_type f.path = some mime_type →
        try_infer_format f = mime_subtype mime_type) ∧
    (∀ kind, mimetypes_guess_type f.path = none → f.sniff = some kind →
        try_infer_format f = kind) ∧
    (mimetypes_guess_type f.path = none → f.sniff = none →
        try_infer_format f = path_ext f.path) := by
  refine ⟨?_, ?_, ?_⟩ <;> intros <;> unfold try_infer_format <;> simp_all

/-- Claim C2, witness: a file whose bytes are JSON but whose name ends in
".csv" infers as "csv" — the subtype of text/csv — not as "json". -/
theorem C2_inference_tier_order_witness :
    try_infer_format mislabeled_file = mime_subtype "text/csv" ∧
    mime_subtype "text/csv" = "csv" ∧
    mislabeled_file.sniff = some "json" :=
  ⟨(C2_inference_tier_order mislabeled_file).1 "text/csv" rfl, rfl, rfl⟩

/-- Claim C3: whenever the inferred tag is none of "csv", "xlsx", "json",
`load_data` fails with the Unsupported-file-format error carrying that tag,
and no table is returned. -/
theorem C3_unsupported_format {α : Type} (f : SourceFile α)
    (h1 : try_infer_format f ≠ "csv") (h2 : try_infer_format f ≠ "xlsx")
    (h3 : try_infer_format f ≠ "json") :
    load_data f = Except.error (LoadError.unsupportedFormat (try_infer_format f)) := by
  simp [load_data, h1, h2, h3]

/-- Claim C3, witness: a ".txt" path infers as "plain" and `load_data` fails
with the Unsupported-file-format error. -/
theorem C3_unsupported_format_witness :
    load_data txt_file =
      Except.error (LoadError.unsupportedFormat (try_infer_format txt_file)) ∧
    try_infer_format txt_file = "plain" :=
  ⟨C3_unsupported_format txt_file (by decide) (by decide) (by decide), by decide⟩

/-- Claim C4: for a file whose inferred tag is supported and whose parse
succeeds with zero rows, `load_data` fails with the contains-no-data
(`EmptyFile`) error and returns no partial table. -/
theorem C4_zero_rows_empty_file {α : Type} (f : SourceFile α) (t : Table α)
    (hfmt : try_infer_format f = "csv" ∨ try_infer_format f = "xlsx" ∨
      try_infer_format f = "json")
    (hparse : read_for_format f (try_infer_format f) = Except.ok t)
    (hrows : t.rows = []) :
    load_data f = Except.error (LoadError.emptyFile f.path) := by
  unfold load_data
  rw [if_pos hfmt, hparse]
  simp [Table.empty, hrows]

/-- Claim C4, witness: a header-only csv file parses to a zero-row table and
`load_data` fails with the contains-no-data error. -/
theorem C4_zero_rows_empty_file_witness :
    load_data empty_csv_file = Except.error (LoadError.emptyFile "/data/empty.csv") :=
  C4_zero_rows_empty_file empty_csv_file (Table.mk ["a", "b"] [])
    (Or.inl (by decide)) rfl rfl

/-!
## Claim theorems: cleaner and inspector
-/

/-- The N=3, M=1 table of claim C5: one row with a missing value, two
complete identical rows. -/
def c5_table : Table Int := Table.mk ["h"] [[none], [some 1], [some 1]]

/-- Claim C5, code bug: on a 3-row table with one missing-value row and
method "dropna" (the spec's "drop-missing"), step 2 does compute the expected
2-row, fully non-missing table, but `clean_data` never returns it — line 57
of cleaner.py evaluates `pd.Series.zscore`, an attribute pandas does not
define, so the call raises AttributeError instead of returning the N−M-row
table. -/
theorem C5_drop_missing_crashes :
    dropna_rows c5_table.rows = [[some 1], [some 1]] ∧
    clean_data c5_table { method := "dropna", threshold := 3 } =
      Except.error (CleanError.attributeError "pandas.Series.zscore") :=
  ⟨rfl, rfl⟩

/-- The table of claim C6's counterexample: no missing values. -/
def no_missing_table : Table Int := Table.mk ["h"] [[some 1]]

/-- Claim C6, counterexample: with an unrecognized method string but a table
containing no missing value, `clean_data` does not fail with the
Invalid-method error — the method string is only examined inside the
`missing_counts.any()` branch (cleaner.py line 31), so validation is skipped
(the call then dies at line 57 with AttributeError instead). -/
theorem C6_invalid_method_counterexample :
    clean_data no_missing_table { method := "bogus", threshold := 3 } ≠
      Except.error CleanError.invalidCleaningMethod := by
  intro h
  rw [show clean_data no_missing_table { method := "bogus", threshold := 3 } =
      Except.error (CleanError.attributeError "pandas.Series.zscore") from rfl] at h
  simp at h

/-- Claim C6, amended: for every table with at least one missing value and
every method string that is neither "dropna" nor "fillna", `clean_data`
fails with the Invalid-method error and produces no output table (the error
is raised in step 2, before any later step runs). -/
theorem C6_invalid_method_amended {α : Type} [DecidableEq α] (df : Table α)
    (options : CleanOptions)
    (hmiss : missing_counts_any df = true)
    (h1 : options.method ≠ "dropna") (h2 : options.method ≠ "fillna") :
    clean_data df options = Except.error CleanError.invalidCleaningMethod := by
  unfold clean_data
  rw [if_pos hmiss, if_neg h1, if_neg h2]

/-- The one-missing-cell table of claim C6's witness. -/
def one_missing_table : Table Int := Table.mk ["h"] [[none]]

/-- Claim C6, witness: a table with a missing cell and the unrecognized
method "unknown-method" yields the Invalid-method error. -/
theorem C6_invalid_method_witness :
    clean_data one_missing_table { method := "unknown-method", threshold := 3 } =
      Except.error CleanError.invalidCleaningMethod :=
  C6_invalid_method_amended one_missing_table _ (by decide) (by decide) (by decide)

/-- The table of claim C7: no missing values, one duplicated row. -/
def c7_table : Table Int := Table.mk ["h"] [[some 1], [some 1], [some 50]]

/-- Claim C7, code bug: duplicates are indeed only counted, never removed
(the count here is 1), and the intended return value is the post-step-2
table; but `clean_data` cannot return it — step 4 evaluates
`pd.Series.zscore` (cleaner.py line 57), which pandas does not define, so
every call raises AttributeError before the `return cleaned_df` at line 78. -/
theorem C7_clean_crashes_before_return :
    duplicated_sum c7_table.rows = 1 ∧
    clean_data c7_table { method := "dropna", threshold := 3 } =
      Except.error (CleanError.attributeError "pandas.Series.zscore") :=
  ⟨rfl, rfl⟩

/-- The fully non-missing table of claim C8. -/
def c8_table : Table Int := Table.mk ["a", "b"] [[some 1, some 2], [some 3, some 4]]

/-- Claim C8, code bug: on a table with zero missing values and method
"dropna", step 2 passes the table through untouched, but `clean_data` is not
the identity — it raises AttributeError at the `pd.Series.zscore` expression
(cleaner.py line 57) instead of returning the unchanged table. -/
theorem C8_identity_case_crashes :
    missing_counts_any c8_table = false ∧
    clean_data c8_table { method := "dropna", threshold := 3 } =
      Except.error (CleanError.attributeError "pandas.Series.zscore") :=
  ⟨rfl, rfl⟩

/-- The two-row numeric table of claim C9. -/
def c9_table : Table Int := Table.mk ["a"] [[some 1], [some 2]]

/-- Claim C9, code bug: even with non-empty `columns_for_corr` and
`columns_for_skewness`, `inspect_data` performs neither the correlation nor
the skewness step, and steps 6–10 do not execute at all — the run aborts
inside step 5 (`check_outliers`), whose line 207 takes the truth value of a
pandas Index (`if numerical_cols:`), an operation pandas defines to raise
ValueError. -/
theorem C9_inspect_aborts_at_outliers :
    (inspect_data c9_table (some ["a"]) (some ["a"])).aborted =
      some PyError.valueErrorIndexTruthiness ∧
    InspectStep.corrAnalysis ∉ (inspect_data c9_table (some ["a"]) (some ["a"])).executed ∧
    InspectStep.skewness ∉ (inspect_data c9_table (some ["a"]) (some ["a"])).executed ∧
    InspectStep.dfRanges ∉ (inspect_data c9_table (some ["a"]) (some ["a"])).executed :=
  ⟨rfl, by decide, by decide, by decide⟩

/-- The no-missing-values table of claim C10. -/
def c10_table : Table Int := Table.mk ["h"] [[some 5], [some 6]]

/-- Claim C10, code bug: on a table with zero missing values and an
unrecognized method string, `clean_data` indeed never validates the method
(no Invalid-method error is raised — the branch holding the validation is
skipped), but it does not return the table unchanged and it does raise: the
`pd.Series.zscore` expression at cleaner.py line 57 raises AttributeError on
every call. -/
theorem C10_method_unvalidated_but_crashes :
    missing_counts_any c10_table = false ∧
    clean_data c10_table { method := "no-such-method", threshold := 3 } =
      Except.error (CleanError.attributeError "pandas.Series.zscore") :=
  ⟨rfl, rfl⟩
